import Mathlib

/-!
# Verification of the kedro-azureml configuration resolution mechanism

Shallow embedding of `kedro_azureml/config.py` (the layered configuration
resolver: `DefaultConfigDict`, the pydantic models `ResourceConfig`,
`AzureTempStorageConfig`, `DockerConfig`, `AzureMLConfig`,
`KedroAzureMLConfig` and their validation), together with the dataset
constructors of `kedro_azureml/datasets/models.py`
(`MlflowAbstractModelDataSet.__init__`) and
`kedro_azureml/datasets/folder_dataset.py` (`AzureMLFolderDataSet.__init__`).

Conventions of the embedding:
* Python dictionaries are association lists `List (String × α)` with
  `List.lookup` (first binding wins; real dicts have unique keys).
  Insertion-on-miss appends at the end, matching insertion order.
* A raw (pre-validation) YAML/JSON value is the inductive `PyVal`.
* A pydantic `ValidationError` is modelled by the list of offending field
  paths; fallible constructors return `Except`.
* `defaultdict.__getitem__` mutates the dictionary on a missed key
  (`__missing__` inserts `default_factory ()`), so dictionary reads are
  state-passing: they return the value together with the updated dictionary.
-/

/-- A pydantic error location, e.g. `["azure", "temporary_storage", "account_name"]`. -/
abbrev FieldPath := List String

/-- An untyped value of a parsed YAML/JSON document (the input of
`KedroAzureMLConfig.parse_obj`).  `int` stands in for the non-string
scalars pydantic would try to coerce. -/
inductive PyVal where
  | str (s : String)
  | int (n : Int)
  | null
  | dict (kvs : List (String × PyVal))

/-- pydantic v1 validation of a `str`-annotated field: strings are accepted,
numeric scalars are coerced with `str(v)`, `None` and mappings are rejected. -/
def strValidator : PyVal → Except Unit String
  | .str s => .ok s
  | .int n => .ok (toString n)
  | .null => .error ()
  | .dict _ => .error ()

/-- `class ResourceConfig(BaseModel): cluster_name: str` -/
structure ResourceConfig where
  cluster_name : String
deriving DecidableEq, Repr

/-- `this.dict(exclude_none=True)` restricted to the single field of
`ResourceConfig`.  The field is a required non-Optional `str`, so on a
validated record it is never `None`: the exported dict always carries it. -/
def ResourceConfig.dictExcludeNone (r : ResourceConfig) : Option String :=
  some r.cluster_name

/-- `defaults.copy(update=u)`: fields present in the update dict override,
absent fields keep the value from `defaults`. -/
def ResourceConfig.copyUpdate (r : ResourceConfig) (u : Option String) : ResourceConfig :=
  { cluster_name := u.getD r.cluster_name }

/-- `class DockerConfig(BaseModel): image: str` -/
structure DockerConfig where
  image : String
deriving DecidableEq, Repr

/-- `class AzureTempStorageConfig(BaseModel): account_name: str; container: str` -/
structure AzureTempStorageConfig where
  account_name : String
  container : String
deriving DecidableEq, Repr

/-- `class DefaultConfigDict(defaultdict)`.  `default_factory` models the
`lambda: default_value` closure by its captured value; it is `none` exactly
when the underlying `defaultdict` has no factory (in which case a missed
lookup raises `KeyError`).  `entries` is the dictionary contents. -/
structure DefaultConfigDict where
  default_factory : Option ResourceConfig
  entries : List (String × ResourceConfig)
deriving DecidableEq, Repr

namespace DefaultConfigDict

/-- `super().__getitem__(key)` on a `defaultdict`: a present key returns its
value; a missed key calls `__missing__`, which (with a factory) inserts
`default_factory()` under the key and returns it, and (without a factory)
raises `KeyError`, modelled as `none`. -/
def superGetItem (d : DefaultConfigDict) (key : String) :
    Option (ResourceConfig × DefaultConfigDict) :=
  match d.entries.lookup key with
  | some v => some (v, d)
  | none =>
    match d.default_factory with
    | some dv => some (dv, { d with entries := d.entries ++ [(key, dv)] })
    | none => none

/-- `DefaultConfigDict.__getitem__`:
`defaults = super().__getitem__("__default__")`,
`this = super().__getitem__(key)`,
`return defaults.copy(update=this.dict(exclude_none=True)) if defaults else this`.
A validated `ResourceConfig` is always truthy as a pydantic `BaseModel`, so
the `if defaults` branch is always taken when the lookups succeed. -/
def __getitem__ (d : DefaultConfigDict) (key : String) :
    Option (ResourceConfig × DefaultConfigDict) :=
  match d.superGetItem "__default__" with
  | none => none
  | some (defaults, d1) =>
    match d1.superGetItem key with
    | none => none
    | some (this, d2) =>
      some (defaults.copyUpdate this.dictExcludeNone, d2)

/-- The spec's `ResourceTable.resolve`: the record produced by a lookup. -/
def resolve (d : DefaultConfigDict) (key : String) : Option ResourceConfig :=
  (d.__getitem__ key).map Prod.fst

end DefaultConfigDict

/-- `class AzureMLConfig(BaseModel)` after validation: `resources` has been
replaced by the `DefaultConfigDict` built by the `_validate_resources`
validator. -/
structure AzureMLConfig where
  experiment_name : String
  workspace_name : String
  resource_group : String
  cluster_name : String
  temporary_storage : AzureTempStorageConfig
  resources : DefaultConfigDict
deriving DecidableEq, Repr

namespace AzureMLConfig

/-- `AzureMLConfig._create_default_dict_with(value, default)`:
`default_value = (value := value or {}).get("__default__", default)`;
`return dict_cls(lambda: default_value, value)`.  `value` is the
pydantic-validated `Optional[Dict[str, ResourceConfig]]`; `value or {}`
replaces both `None` and the empty dict by `{}`. -/
def _create_default_dict_with (value : Option (List (String × ResourceConfig)))
    (default : ResourceConfig) : DefaultConfigDict :=
  let v := value.getD []
  let default_value := (v.lookup "__default__").getD default
  { default_factory := some default_value, entries := v }

/-- `AzureMLConfig._validate_resources` (an `always=True` validator):
builds the resource table with the fixed fallback
`ResourceConfig(cluster_name="{cluster_name}")`. -/
def _validate_resources (value : Option (List (String × ResourceConfig))) :
    DefaultConfigDict :=
  _create_default_dict_with value { cluster_name := "{cluster_name}" }

end AzureMLConfig

/-- `class KedroAzureMLConfig(BaseModel): azure: AzureMLConfig; docker: DockerConfig` -/
structure KedroAzureMLConfig where
  azure : AzureMLConfig
  docker : DockerConfig
deriving DecidableEq, Repr

/-! ## Parsing / validation (pydantic `parse_obj`)

pydantic collects every error of a document and reports them together; each
parsing helper therefore returns the pair of the errors found and the value
built when there were none. -/

/-- A required `str`-annotated field of a pydantic model: missing, `None`,
or non-coercible values produce an error naming the field path. -/
def reqStrField (path : FieldPath) (kvs : List (String × PyVal)) (name : String) :
    List FieldPath × Option String :=
  match kvs.lookup name with
  | none => ([path ++ [name]], none)
  | some v =>
    match strValidator v with
    | .ok s => ([], some s)
    | .error _ => ([path ++ [name]], none)

/-- The required `temporary_storage: AzureTempStorageConfig` sub-model. -/
def parseTempStorageField (path : FieldPath) (kvs : List (String × PyVal)) :
    List FieldPath × Option AzureTempStorageConfig :=
  match kvs.lookup "temporary_storage" with
  | some (.dict ts) =>
    let an := reqStrField (path ++ ["temporary_storage"]) ts "account_name"
    let ct := reqStrField (path ++ ["temporary_storage"]) ts "container"
    (an.1 ++ ct.1,
      match an.2, ct.2 with
      | some a, some c => some { account_name := a, container := c }
      | _, _ => none)
  | _ => ([path ++ ["temporary_storage"]], none)

/-- One value of the `resources: Dict[str, ResourceConfig]` mapping. -/
def parseResourceItem (path : FieldPath) (k : String) (v : PyVal) :
    List FieldPath × Option ResourceConfig :=
  match v with
  | .dict kvs =>
    match reqStrField (path ++ [k]) kvs "cluster_name" with
    | (es, some s) => (es, some { cluster_name := s })
    | (es, none) => (es, none)
  | _ => ([path ++ [k]], none)

/-- All entries of the `resources` mapping, errors collected across entries. -/
def parseResourceEntries (path : FieldPath) :
    List (String × PyVal) → List FieldPath × Option (List (String × ResourceConfig))
  | [] => ([], some [])
  | (k, v) :: rest =>
    let h := parseResourceItem path k v
    let t := parseResourceEntries path rest
    (h.1 ++ t.1,
      match h.2, t.2 with
      | some a, some b => some ((k, a) :: b)
      | _, _ => none)

/-- The `resources: Optional[Dict[str, ResourceConfig]]` field: absent or
`None` validates to `None` (the `always=True` validator still runs on it). -/
def parseResourcesField (path : FieldPath) (kvs : List (String × PyVal)) :
    List FieldPath × Option (Option (List (String × ResourceConfig))) :=
  match kvs.lookup "resources" with
  | none => ([], some none)
  | some .null => ([], some none)
  | some (.dict m) =>
    match parseResourceEntries (path ++ ["resources"]) m with
    | (es, some l) => (es, some (some l))
    | (es, none) => (es, none)
  | some _ => ([path ++ ["resources"]], none)

/-- Validation of the `azure: AzureMLConfig` section, including the
`_validate_resources` validator that builds the `DefaultConfigDict`. -/
def parseAzure (v : PyVal) : List FieldPath × Option AzureMLConfig :=
  match v with
  | .dict kvs =>
    let en := reqStrField ["azure"] kvs "experiment_name"
    let wn := reqStrField ["azure"] kvs "workspace_name"
    let rg := reqStrField ["azure"] kvs "resource_group"
    let cn := reqStrField ["azure"] kvs "cluster_name"
    let ts := parseTempStorageField ["azure"] kvs
    let rs := parseResourcesField ["azure"] kvs
    (en.1 ++ wn.1 ++ rg.1 ++ cn.1 ++ ts.1 ++ rs.1,
      match en.2, wn.2, rg.2, cn.2, ts.2, rs.2 with
      | some a, some b, some c, some d, some e, some f =>
        some { experiment_name := a, workspace_name := b, resource_group := c,
               cluster_name := d, temporary_storage := e,
               resources := AzureMLConfig._validate_resources f }
      | _, _, _, _, _, _ => none)
  | _ => ([["azure"]], none)

/-- Validation of the `docker: DockerConfig` section. -/
def parseDocker (v : PyVal) : List FieldPath × Option DockerConfig :=
  match v with
  | .dict kvs =>
    match reqStrField ["docker"] kvs "image" with
    | (es, some s) => (es, some { image := s })
    | (es, none) => (es, none)
  | _ => ([["docker"]], none)

/-- `KedroAzureMLConfig.parse_obj`: validates the whole document, returning
either the validated configuration or the `ValidationError` (as the list of
offending field paths).  This is the spec's `parse`. -/
def KedroAzureMLConfig.parse_obj (doc : PyVal) :
    Except (List FieldPath) KedroAzureMLConfig :=
  match doc with
  | .dict kvs =>
    let az :=
      match kvs.lookup "azure" with
      | none => ([["azure"]], none)
      | some v => parseAzure v
    let dk :=
      match kvs.lookup "docker" with
      | none => ([["docker"]], none)
      | some v => parseDocker v
    match az.2, dk.2 with
    | some a, some d => .ok { azure := a, docker := d }
    | _, _ => .error (az.1 ++ dk.1)
  | _ => .error [["__root__"]]

/-! ## Dataset constructors (`datasets/models.py`, `datasets/folder_dataset.py`) -/

/-- The two error classes the plugin raises at construction: pydantic
`ValidationError` (with its field paths) and kedro `DataSetError` (with its
message). -/
inductive PluginError where
  | validationError (paths : List FieldPath)
  | dataSetError (msg : String)

/-- `true` exactly on a failed construction that raised a pydantic
`ValidationError`. -/
def raisedValidationError : Except PluginError α → Bool
  | .error (.validationError _) => true
  | _ => false

/-- `true` exactly on a failed construction that raised a kedro
`DataSetError`. -/
def raisedDataSetError : Except PluginError α → Bool
  | .error (.dataSetError _) => true
  | _ => false

/-- `kedro.io.core.Version` (a pair of optional load/save version strings). -/
structure Version where
  load : Option String
  save : Option String

/-- The message of the `DataSetError` raised by
`MlflowAbstractModelDataSet.__init__` on a PyFunc flavor without a valid
workflow (quotation marks elided). -/
def pyfuncWorkflowMsg : String :=
  "PyFunc models require specifying pyfunc_workflow (set to either python_model or loader_module)"

/-- The message of the `DataSetError` raised when the flavor module cannot
be imported (quotation marks elided). -/
def moduleNotFoundMsg (import_path : String) : String :=
  import_path ++ " module not found. Check valid flavor in mlflow documentation"

/-- The attributes a successful `MlflowAbstractModelDataSet.__init__`
leaves on the object. -/
structure MlflowAbstractModelDataSet where
  _filepath : String
  _version : Option Version
  _flavor : String
  _pyfunc_workflow : Option String
  _logging_activated : Bool
  _load_args : List (String × PyVal)
  _save_args : List (String × PyVal)

/-- `MlflowAbstractModelDataSet.__init__`.  `importable` models
`importlib.util.find_spec` (whether the flavor module exists).  The PyFunc
workflow check runs first: `flavor == "mlflow.pyfunc"` with
`pyfunc_workflow not in ("python_model", "loader_module")` — in particular
an unset (`None`) workflow — raises a `DataSetError`.  Then
`load_args or {}` / `save_args or {}` are stored and the flavor module is
imported, a failure being re-raised as a `DataSetError`. -/
def MlflowAbstractModelDataSet.__init__ (importable : String → Bool)
    (filepath : String) (flavor : String) (pyfunc_workflow : Option String)
    (load_args : Option (List (String × PyVal)))
    (save_args : Option (List (String × PyVal)))
    (version : Option Version) : Except PluginError MlflowAbstractModelDataSet :=
  if flavor = "mlflow.pyfunc" ∧ pyfunc_workflow ≠ some "python_model" ∧
      pyfunc_workflow ≠ some "loader_module" then
    .error (.dataSetError pyfuncWorkflowMsg)
  else if importable flavor then
    .ok { _filepath := filepath, _version := version, _flavor := flavor,
          _pyfunc_workflow := pyfunc_workflow, _logging_activated := true,
          _load_args := load_args.getD [], _save_args := save_args.getD [] }
  else
    .error (.dataSetError (moduleNotFoundMsg flavor))

/-- `kedro.io.core.VERSION_KEY`. -/
def VERSION_KEY : String := "version"

/-- `kedro.io.core.VERSIONED_FLAG_KEY`. -/
def VERSIONED_FLAG_KEY : String := "versioned"

/-- The message of the `DataSetError` raised by
`AzureMLFolderDataSet.__init__` on a versioned underlying dataset
(quotation marks elided). -/
def folderVersioningMsg : String :=
  "AzureMLFolderDataSet does not support versioning of the underlying dataset. Please remove " ++
    VERSIONED_FLAG_KEY ++ " flag from the dataset definition."

/-- The attributes of a successfully constructed `AzureMLFolderDataSet`. -/
structure AzureMLFolderDataSet where
  _azureml_dataset : String
  _dataset_config : List (String × PyVal)
  _filepath_arg : String

/-- `AzureMLFolderDataSet.__init__`.  The parent class
`AzureMLPipelineDataSet` (not part of the sources under verification)
derives `self._dataset_config` from the `dataset` argument; the
constructor is therefore modelled over that resulting configuration
mapping.  After the parent initialisation it checks
`VERSION_KEY in self._dataset_config` and raises a `DataSetError` telling
the user to remove the `VERSIONED_FLAG_KEY` flag. -/
def AzureMLFolderDataSet.__init__ (azureml_dataset : String)
    (dataset_config : List (String × PyVal)) (filepath_arg : String) :
    Except PluginError AzureMLFolderDataSet :=
  if (dataset_config.lookup VERSION_KEY).isSome then
    .error (.dataSetError folderVersioningMsg)
  else
    .ok { _azureml_dataset := azureml_dataset, _dataset_config := dataset_config,
          _filepath_arg := filepath_arg }

/-! ## Observers and concrete documents used in the statements -/

/-- Whether `parse_obj` rejects the document. -/
def parseFailed (doc : PyVal) : Bool :=
  match KedroAzureMLConfig.parse_obj doc with
  | .error _ => true
  | .ok _ => false

/-- The field paths of the `ValidationError` raised by `parse_obj`
(empty when the document is accepted). -/
def parseErrors (doc : PyVal) : List FieldPath :=
  match KedroAzureMLConfig.parse_obj doc with
  | .error es => es
  | .ok _ => []

/-- Whether a mapping carries the named field with a value the `str`
validator accepts. -/
def strFieldOk (kvs : List (String × PyVal)) (name : String) : Bool :=
  match kvs.lookup name with
  | some v =>
    match strValidator v with
    | .ok _ => true
    | .error _ => false
  | none => false

/-- Whether a mapping carries a well-formed `temporary_storage` section. -/
def tempStorageFieldOk (kvs : List (String × PyVal)) : Bool :=
  match kvs.lookup "temporary_storage" with
  | some (.dict ts) => strFieldOk ts "account_name" && strFieldOk ts "container"
  | _ => false

/-- The resources mapping of the override-precedence example of the spec:
`{ __default__: {cluster_name: "A"}, foo: {cluster_name: "B"} }`. -/
def exampleResourcesAB : List (String × ResourceConfig) :=
  [("__default__", { cluster_name := "A" }), ("foo", { cluster_name := "B" })]

/-- The `temporary_storage` section of the well-formed example document. -/
def exampleTsKvs : List (String × PyVal) :=
  [("account_name", .str "acct"), ("container", .str "cont")]

/-- The `azure` section of the well-formed example document: root cluster
name `"base-cluster"`, a `resources` section with a `chunky` role and no
`__default__` entry. -/
def exampleAzureKvs : List (String × PyVal) :=
  [("experiment_name", .str "e"), ("workspace_name", .str "w"),
   ("resource_group", .str "rg"), ("cluster_name", .str "base-cluster"),
   ("temporary_storage", .dict exampleTsKvs),
   ("resources", .dict [("chunky", .dict [("cluster_name", .str "chunky-cpu-cluster")])])]

/-- The `docker` section of the example documents. -/
def exampleDkvs : List (String × PyVal) := [("image", .str "img")]

/-- The top-level mapping of the well-formed example document. -/
def exampleKvs : List (String × PyVal) :=
  [("azure", .dict exampleAzureKvs), ("docker", .dict exampleDkvs)]

/-- A well-formed raw document whose `resources` section has no
`__default__` entry. -/
def exampleDoc : PyVal := .dict exampleKvs

/-- The configuration `parse_obj` produces for `exampleDoc`. -/
def exampleCfg : KedroAzureMLConfig :=
  { azure := { experiment_name := "e", workspace_name := "w",
               resource_group := "rg", cluster_name := "base-cluster",
               temporary_storage := { account_name := "acct", container := "cont" },
               resources := { default_factory := some { cluster_name := "{cluster_name}" },
                              entries := [("chunky", { cluster_name := "chunky-cpu-cluster" })] } },
    docker := { image := "img" } }

/-- A raw document in which every required string field is the empty
string (and `resources` is absent). -/
def emptyStringsDoc : PyVal :=
  .dict [("azure", .dict [("experiment_name", .str ""), ("workspace_name", .str ""),
            ("resource_group", .str ""), ("cluster_name", .str ""),
            ("temporary_storage", .dict [("account_name", .str ""), ("container", .str "")])]),
         ("docker", .dict [("image", .str "")])]

/-- The configuration `parse_obj` produces for `emptyStringsDoc`. -/
def emptyStringsCfg : KedroAzureMLConfig :=
  { azure := { experiment_name := "", workspace_name := "",
               resource_group := "", cluster_name := "",
               temporary_storage := { account_name := "", container := "" },
               resources := { default_factory := some { cluster_name := "{cluster_name}" },
                              entries := [] } },
    docker := { image := "" } }

/-- The `temporary_storage` section of `missingAccountDoc`: `account_name`
is absent. -/
def missingAccountTsKvs : List (String × PyVal) := [("container", .str "cont")]

/-- The `azure` section of `missingAccountDoc`. -/
def missingAccountAzureKvs : List (String × PyVal) :=
  [("experiment_name", .str "e"), ("workspace_name", .str "w"),
   ("resource_group", .str "rg"), ("cluster_name", .str "c"),
   ("temporary_storage", .dict missingAccountTsKvs)]

/-- The top-level mapping of a document missing
`azure.temporary_storage.account_name`. -/
def missingAccountKvs : List (String × PyVal) :=
  [("azure", .dict missingAccountAzureKvs), ("docker", .dict exampleDkvs)]

/-- The `azure` section of a well-formed document with no `resources` key. -/
def noResourcesAzureKvs : List (String × PyVal) :=
  [("experiment_name", .str "e"), ("workspace_name", .str "w"),
   ("resource_group", .str "rg"), ("cluster_name", .str "c"),
   ("temporary_storage", .dict exampleTsKvs)]

/-- The top-level mapping of a well-formed document with no `resources`
key. -/
def noResourcesKvs : List (String × PyVal) :=
  [("azure", .dict noResourcesAzureKvs), ("docker", .dict exampleDkvs)]

/-- The table built from the resources mapping
`{ "__default__": {cluster_name: "A"} }`. -/
def exampleTableA : DefaultConfigDict :=
  AzureMLConfig._create_default_dict_with
    (some [("__default__", { cluster_name := "A" })])
    { cluster_name := "{cluster_name}" }

/-- The state `exampleTableA` is left in after resolving the absent key
`"foo"`. -/
def exampleTableAfter : DefaultConfigDict :=
  { default_factory := some { cluster_name := "A" },
    entries := [("__default__", { cluster_name := "A" }),
                ("foo", { cluster_name := "A" })] }

/-! ## General lemmas about the resource table -/

/-- `List.lookup` distributes over append: the first list wins. -/
theorem lookup_append {β : Type} (k : String) (l1 l2 : List (String × β)) :
    (l1 ++ l2).lookup k = ((l1.lookup k).orElse fun _ => l2.lookup k) := by
  induction l1 with
  | nil => simp [List.lookup]
  | cons p t ih =>
    obtain ⟨a, b⟩ := p
    simp only [List.cons_append, List.lookup]
    cases k == a <;> simp [ih]

/-- The value a `defaultdict` read produces, ignoring the state change:
the stored value when the key is present, else the factory value. -/
def DefaultConfigDict.readValue (d : DefaultConfigDict) (k : String) :
    Option ResourceConfig :=
  match d.entries.lookup k with
  | some v => some v
  | none => d.default_factory

/-- `superGetItem` succeeds exactly when `readValue` does, and returns
that value. -/
theorem superGetItem_fst (d : DefaultConfigDict) (k : String) :
    (d.superGetItem k).map Prod.fst = d.readValue k := by
  unfold DefaultConfigDict.superGetItem DefaultConfigDict.readValue
  cases d.entries.lookup k with
  | some v => rfl
  | none => cases d.default_factory <;> rfl

/-- A successful `superGetItem` preserves the factory, preserves every
stored binding, and changes no `readValue`. -/
theorem superGetItem_state (d : DefaultConfigDict) (k : String)
    (v : ResourceConfig) (d' : DefaultConfigDict)
    (h : d.superGetItem k = some (v, d')) :
    d'.default_factory = d.default_factory ∧
    (∀ k2 v2, d.entries.lookup k2 = some v2 → d'.entries.lookup k2 = some v2) ∧
    (∀ k2, d'.readValue k2 = d.readValue k2) := by
  cases hl : d.entries.lookup k with
  | some w =>
    simp only [DefaultConfigDict.superGetItem, hl, Option.some.injEq, Prod.mk.injEq] at h
    obtain ⟨rfl, rfl⟩ := h
    exact ⟨rfl, fun _ _ h2 => h2, fun _ => rfl⟩
  | none =>
    cases hf : d.default_factory with
    | none => simp [DefaultConfigDict.superGetItem, hl, hf] at h
    | some dv =>
      simp only [DefaultConfigDict.superGetItem, hl, hf, Option.some.injEq,
        Prod.mk.injEq] at h
      obtain ⟨rfl, rfl⟩ := h
      refine ⟨rfl, ?_, ?_⟩
      · intro k2 v2 h2
        simp [lookup_append, h2, Option.orElse]
      · intro k2
        simp only [DefaultConfigDict.readValue, lookup_append]
        by_cases hk : k2 = k
        · subst hk
          simp [hl, List.lookup, Option.orElse, hf]
        · cases hl2 : d.entries.lookup k2 with
          | some w2 => simp [hl2, Option.orElse]
          | none => simp [hl2, Option.orElse, List.lookup, beq_eq_false_iff_ne.mpr hk, hf]

/-- State-free characterization of `__getitem__`: the record it produces is
the merge of the default-or-stored `"__default__"` record with the
stored-or-default record under the key. -/
theorem resolve_eq_read (d : DefaultConfigDict) (k : String) :
    d.resolve k =
      match d.readValue "__default__", d.readValue k with
      | some defaults, some tv => some (defaults.copyUpdate tv.dictExcludeNone)
      | _, _ => none := by
  unfold DefaultConfigDict.resolve DefaultConfigDict.__getitem__
  cases h0 : d.superGetItem "__default__" with
  | none =>
    have hrd : d.readValue "__default__" = none := by
      rw [← superGetItem_fst, h0]; rfl
    simp [hrd]
  | some pr =>
    obtain ⟨defaults, d1⟩ := pr
    have hrd : d.readValue "__default__" = some defaults := by
      rw [← superGetItem_fst, h0]; rfl
    obtain ⟨hfac, hpres, hread⟩ := superGetItem_state d "__default__" defaults d1 h0
    cases h1 : d1.superGetItem k with
    | none =>
      have hrk : d.readValue k = none := by
        rw [← hread k, ← superGetItem_fst, h1]; rfl
      simp [h1, hrd, hrk]
    | some pr2 =>
      obtain ⟨tv, d2⟩ := pr2
      have hrk : d.readValue k = some tv := by
        rw [← hread k, ← superGetItem_fst, h1]; rfl
      simp [h1, hrd, hrk]

/-- A successful `__getitem__` preserves the factory, preserves every stored
binding, and changes the `readValue` of no key. -/
theorem getitem_state (d : DefaultConfigDict) (k : String) (r : ResourceConfig)
    (t : DefaultConfigDict) (h : d.__getitem__ k = some (r, t)) :
    t.default_factory = d.default_factory ∧
    (∀ k2 v2, d.entries.lookup k2 = some v2 → t.entries.lookup k2 = some v2) ∧
    (∀ k2, t.readValue k2 = d.readValue k2) := by
  unfold DefaultConfigDict.__getitem__ at h
  cases h0 : d.superGetItem "__default__" with
  | none => simp only [h0] at h; exact Option.noConfusion h
  | some pr =>
    obtain ⟨defaults, d1⟩ := pr
    obtain ⟨f1, p1, r1⟩ := superGetItem_state d "__default__" defaults d1 h0
    cases h1 : d1.superGetItem k with
    | none => simp only [h0, h1] at h; exact Option.noConfusion h
    | some pr2 =>
      obtain ⟨tv, d2⟩ := pr2
      obtain ⟨f2, p2, r2⟩ := superGetItem_state d1 k tv d2 h1
      simp only [h0, h1, Option.some.injEq, Prod.mk.injEq] at h
      obtain ⟨-, rfl⟩ := h
      exact ⟨f2.trans f1, fun k2 v2 hv => p2 k2 v2 (p1 k2 v2 hv),
        fun k2 => (r2 k2).trans (r1 k2)⟩

/-- A table whose factory is set resolves every key. -/
theorem resolve_isSome_of_factory (d : DefaultConfigDict) (f : ResourceConfig)
    (hf : d.default_factory = some f) (k : String) :
    (d.resolve k).isSome = true := by
  rw [resolve_eq_read]
  have h1 : ∀ k2, ∃ v, d.readValue k2 = some v := by
    intro k2
    unfold DefaultConfigDict.readValue
    cases d.entries.lookup k2 with
    | some v => exact ⟨v, rfl⟩
    | none => exact ⟨f, hf⟩
  obtain ⟨a, ha⟩ := h1 "__default__"
  obtain ⟨b, hb⟩ := h1 k
  simp [ha, hb]

/-- `resolve` succeeds exactly when `__getitem__` does. -/
theorem getitem_isSome_eq (d : DefaultConfigDict) (k : String) :
    (d.__getitem__ k).isSome = (d.resolve k).isSome := by
  unfold DefaultConfigDict.resolve
  cases d.__getitem__ k <;> rfl

/-- The read value of a freshly built table: the stored record when the key
is present, else the `"__default__"` record of the raw mapping, else the
supplied fallback. -/
theorem create_readValue (value : Option (List (String × ResourceConfig)))
    (dflt : ResourceConfig) (k : String) :
    (AzureMLConfig._create_default_dict_with value dflt).readValue k =
      some (((value.getD []).lookup k).getD
        (((value.getD []).lookup "__default__").getD dflt)) := by
  unfold AzureMLConfig._create_default_dict_with DefaultConfigDict.readValue
  cases h : (value.getD []).lookup k <;> simp [h]

/-- Resolution on a freshly built table: the cluster name comes from the
stored record when the key is present, else from the default record. -/
theorem create_resolve (value : Option (List (String × ResourceConfig)))
    (dflt : ResourceConfig) (k : String) :
    (AzureMLConfig._create_default_dict_with value dflt).resolve k =
      some { cluster_name := (((value.getD []).lookup k).getD
        (((value.getD []).lookup "__default__").getD dflt)).cluster_name } := by
  rw [resolve_eq_read, create_readValue, create_readValue]
  simp [ResourceConfig.copyUpdate, ResourceConfig.dictExcludeNone]

/-- If any component of the `azure` section fails, `parseAzure` produces no value. -/
theorem parseAzure_snd_none (akvs : List (String × PyVal))
    (h : (reqStrField ["azure"] akvs "experiment_name").2 = none ∨
         (reqStrField ["azure"] akvs "workspace_name").2 = none ∨
         (reqStrField ["azure"] akvs "resource_group").2 = none ∨
         (reqStrField ["azure"] akvs "cluster_name").2 = none ∨
         (parseTempStorageField ["azure"] akvs).2 = none ∨
         (parseResourcesField ["azure"] akvs).2 = none) :
    (parseAzure (.dict akvs)).2 = none := by
  simp only [parseAzure]
  cases h1 : (reqStrField ["azure"] akvs "experiment_name").2 <;>
    cases h2 : (reqStrField ["azure"] akvs "workspace_name").2 <;>
      cases h3 : (reqStrField ["azure"] akvs "resource_group").2 <;>
        cases h4 : (reqStrField ["azure"] akvs "cluster_name").2 <;>
          cases h5 : (parseTempStorageField ["azure"] akvs).2 <;>
            cases h6 : (parseResourcesField ["azure"] akvs).2 <;>
              simp_all

/-- Errors of any component of the `azure` section are reported. -/
theorem mem_parseAzure_errs (akvs : List (String × PyVal)) (p : FieldPath)
    (h : p ∈ (reqStrField ["azure"] akvs "experiment_name").1 ∨
         p ∈ (reqStrField ["azure"] akvs "workspace_name").1 ∨
         p ∈ (reqStrField ["azure"] akvs "resource_group").1 ∨
         p ∈ (reqStrField ["azure"] akvs "cluster_name").1 ∨
         p ∈ (parseTempStorageField ["azure"] akvs).1 ∨
         p ∈ (parseResourcesField ["azure"] akvs).1) :
    p ∈ (parseAzure (.dict akvs)).1 := by
  simp only [parseAzure, List.mem_append]
  tauto

/-- A failed `azure` section makes the whole parse fail, and its errors are
among the reported ones. -/
theorem parse_error_of_azure (kvs akvs : List (String × PyVal)) (p : FieldPath)
    (h1 : kvs.lookup "azure" = some (.dict akvs))
    (hn : (parseAzure (.dict akvs)).2 = none)
    (hm : p ∈ (parseAzure (.dict akvs)).1) :
    parseFailed (.dict kvs) = true ∧ p ∈ parseErrors (.dict kvs) := by
  unfold parseFailed parseErrors KedroAzureMLConfig.parse_obj
  simp only [h1, hn, List.mem_append]
  exact ⟨trivial, Or.inl hm⟩

/-- Inversion of a successful parse: the document is a mapping with
well-formed `azure` and `docker` sections whose fields validated to the
fields of the produced configuration, and the resource table was built by
the `_validate_resources` validator. -/
theorem parse_obj_ok_inv (doc : PyVal) (c : KedroAzureMLConfig)
    (hp : KedroAzureMLConfig.parse_obj doc = .ok c) :
    ∃ kvs akvs dkvs rs,
      doc = .dict kvs ∧
      kvs.lookup "azure" = some (.dict akvs) ∧
      kvs.lookup "docker" = some (.dict dkvs) ∧
      (reqStrField ["azure"] akvs "experiment_name").2 = some c.azure.experiment_name ∧
      (reqStrField ["azure"] akvs "workspace_name").2 = some c.azure.workspace_name ∧
      (reqStrField ["azure"] akvs "resource_group").2 = some c.azure.resource_group ∧
      (reqStrField ["azure"] akvs "cluster_name").2 = some c.azure.cluster_name ∧
      (parseTempStorageField ["azure"] akvs).2 = some c.azure.temporary_storage ∧
      (parseResourcesField ["azure"] akvs).2 = some rs ∧
      c.azure.resources = AzureMLConfig._validate_resources rs ∧
      (reqStrField ["docker"] dkvs "image").2 = some c.docker.image := by
  cases doc with
  | str s => simp [KedroAzureMLConfig.parse_obj] at hp
  | int n => simp [KedroAzureMLConfig.parse_obj] at hp
  | null => simp [KedroAzureMLConfig.parse_obj] at hp
  | dict kvs =>
    simp only [KedroAzureMLConfig.parse_obj] at hp
    cases hA : kvs.lookup "azure" with
    | none => simp only [hA] at hp; exact Except.noConfusion hp
    | some av =>
      cases av with
      | str s => simp only [hA, parseAzure] at hp; exact Except.noConfusion hp
      | int n => simp only [hA, parseAzure] at hp; exact Except.noConfusion hp
      | null => simp only [hA, parseAzure] at hp; exact Except.noConfusion hp
      | dict akvs =>
        simp only [hA, parseAzure] at hp
        cases h1 : (reqStrField ["azure"] akvs "experiment_name").2 with
        | none => simp only [h1] at hp; exact Except.noConfusion hp
        | some s1 =>
        cases h2 : (reqStrField ["azure"] akvs "workspace_name").2 with
        | none => simp only [h1, h2] at hp; exact Except.noConfusion hp
        | some s2 =>
        cases h3 : (reqStrField ["azure"] akvs "resource_group").2 with
        | none => simp only [h1, h2, h3] at hp; exact Except.noConfusion hp
        | some s3 =>
        cases h4 : (reqStrField ["azure"] akvs "cluster_name").2 with
        | none => simp only [h1, h2, h3, h4] at hp; exact Except.noConfusion hp
        | some s4 =>
        cases h5 : (parseTempStorageField ["azure"] akvs).2 with
        | none => simp only [h1, h2, h3, h4, h5] at hp; exact Except.noConfusion hp
        | some ts =>
        cases h6 : (parseResourcesField ["azure"] akvs).2 with
        | none => simp only [h1, h2, h3, h4, h5, h6] at hp; exact Except.noConfusion hp
        | some rs =>
        cases hD : kvs.lookup "docker" with
        | none =>
          simp only [h1, h2, h3, h4, h5, h6, hD] at hp
          exact Except.noConfusion hp
        | some dv =>
        cases dv with
        | str s =>
          simp only [h1, h2, h3, h4, h5, h6, hD, parseDocker] at hp
          exact Except.noConfusion hp
        | int n =>
          simp only [h1, h2, h3, h4, h5, h6, hD, parseDocker] at hp
          exact Except.noConfusion hp
        | null =>
          simp only [h1, h2, h3, h4, h5, h6, hD, parseDocker] at hp
          exact Except.noConfusion hp
        | dict dkvs =>
          rcases hE : reqStrField ["docker"] dkvs "image" with ⟨des, io⟩
          cases io with
          | none =>
            simp only [h1, h2, h3, h4, h5, h6, hD, parseDocker, hE] at hp
            exact Except.noConfusion hp
          | some si =>
            simp only [h1, h2, h3, h4, h5, h6, hD, parseDocker, hE,
              Except.ok.injEq] at hp
            subst hp
            refine ⟨kvs, akvs, dkvs, rs, rfl, hA, hD, h1, h2, h3, h4, h5, h6, rfl, ?_⟩
            rw [hE]

/-- A field that validated carries a value the `str` validator accepts. -/
theorem strFieldOk_of_req (path : FieldPath) (kvs : List (String × PyVal))
    (name s : String) (h : (reqStrField path kvs name).2 = some s) :
    strFieldOk kvs name = true := by
  unfold reqStrField at h
  unfold strFieldOk
  cases hl : kvs.lookup name with
  | none => simp only [hl] at h; exact Option.noConfusion h
  | some v =>
    simp only [hl] at h ⊢
    cases hv : strValidator v with
    | ok s2 => simp [hv]
    | error e => simp only [hv] at h; exact Option.noConfusion h

/-- A `temporary_storage` section that validated is well-formed. -/
theorem tempStorageFieldOk_of_parse (path : FieldPath) (kvs : List (String × PyVal))
    (ts : AzureTempStorageConfig) (h : (parseTempStorageField path kvs).2 = some ts) :
    tempStorageFieldOk kvs = true := by
  unfold parseTempStorageField at h
  unfold tempStorageFieldOk
  cases hl : kvs.lookup "temporary_storage" with
  | none => simp only [hl] at h; exact Option.noConfusion h
  | some v =>
    cases v with
    | str s => simp only [hl] at h; exact Option.noConfusion h
    | int n => simp only [hl] at h; exact Option.noConfusion h
    | null => simp only [hl] at h; exact Option.noConfusion h
    | dict tkvs =>
      simp only [hl] at h ⊢
      rcases ha : reqStrField (path ++ ["temporary_storage"]) tkvs "account_name" with ⟨aes, ao⟩
      rcases hc : reqStrField (path ++ ["temporary_storage"]) tkvs "container" with ⟨ces, co⟩
      rw [ha, hc] at h
      cases ao with
      | none => simp only at h; exact Option.noConfusion h
      | some sa =>
        cases co with
        | none => simp only at h; exact Option.noConfusion h
        | some sc =>
          have h1 : strFieldOk tkvs "account_name" = true :=
            strFieldOk_of_req (path ++ ["temporary_storage"]) tkvs "account_name" sa (by rw [ha])
          have h2 : strFieldOk tkvs "container" = true :=
            strFieldOk_of_req (path ++ ["temporary_storage"]) tkvs "container" sc (by rw [hc])
          simp [h1, h2]

/-! ## The claims -/

/-- Claim C1: on a table built by the parser from a raw resources mapping
with default record `D`, resolving a key `k ≠ "__default__"` under which an
explicit record `E` is stored returns `D` with every explicitly set field
of `E` overriding (for `ResourceConfig` its single field `cluster_name`),
resolving a key with no stored record returns `D`, and resolving
`"__default__"` returns `D`. -/
theorem resolve_is_field_level_merge_with_default
    (value : Option (List (String × ResourceConfig))) (dflt : ResourceConfig)
    (k : String) (_hk : k ≠ "__default__") :
    (∀ E, (value.getD []).lookup k = some E →
      (AzureMLConfig._create_default_dict_with value dflt).resolve k =
        some ((((value.getD []).lookup "__default__").getD dflt).copyUpdate
          (ResourceConfig.dictExcludeNone E)) ∧
      (AzureMLConfig._create_default_dict_with value dflt).resolve k =
        some { cluster_name := E.cluster_name }) ∧
    ((value.getD []).lookup k = none →
      (AzureMLConfig._create_default_dict_with value dflt).resolve k =
        some (((value.getD []).lookup "__default__").getD dflt)) ∧
    (AzureMLConfig._create_default_dict_with value dflt).resolve "__default__" =
      some (((value.getD []).lookup "__default__").getD dflt) := by
  refine ⟨?_, ?_, ?_⟩
  · intro E hE
    constructor <;>
      simp [create_resolve, hE, ResourceConfig.copyUpdate, ResourceConfig.dictExcludeNone]
  · intro hnone
    rw [create_resolve, hnone]
    rfl
  · rw [create_resolve]
    cases h : (value.getD []).lookup "__default__" <;> simp [h]

/-- Witness for C1 on the spec example `{ __default__: {cluster_name: "A"},
foo: {cluster_name: "B"} }`: `foo` resolves to `B`, the absent `bar`
resolves to `A`. -/
theorem resolve_is_field_level_merge_with_default_witness :
    (AzureMLConfig._create_default_dict_with (some exampleResourcesAB)
      { cluster_name := "{cluster_name}" }).resolve "foo" =
        some { cluster_name := "B" } ∧
    (AzureMLConfig._create_default_dict_with (some exampleResourcesAB)
      { cluster_name := "{cluster_name}" }).resolve "bar" =
        some { cluster_name := "A" } :=
  ⟨((resolve_is_field_level_merge_with_default (some exampleResourcesAB)
      { cluster_name := "{cluster_name}" } "foo" (by decide)).1
        { cluster_name := "B" } rfl).2,
    (resolve_is_field_level_merge_with_default (some exampleResourcesAB)
      { cluster_name := "{cluster_name}" } "bar" (by decide)).2.1 rfl⟩

/-- Claim C2 counterexample: parsing a document with root cluster name
`"base-cluster"` and a resources section without `"__default__"` yields a
default record whose cluster name is the literal placeholder
`"{cluster_name}"`, not the root cluster name. -/
theorem default_synthesis_root_cluster_counterexample :
    KedroAzureMLConfig.parse_obj exampleDoc = .ok exampleCfg ∧
    exampleCfg.azure.cluster_name = "base-cluster" ∧
    exampleCfg.azure.resources.resolve "bar" =
      some { cluster_name := "{cluster_name}" } ∧
    exampleCfg.azure.resources.resolve "bar" ≠
      some { cluster_name := exampleCfg.azure.cluster_name } :=
  ⟨rfl, rfl, rfl, by decide⟩

/-- Claim C2 (amended): parsing a document whose resources section has no
`"__default__"` entry yields a default record with cluster name equal to
the literal placeholder string `"{cluster_name}"` (independent of the
root-level cluster name); every key absent from the section resolves to
it. -/
theorem default_synthesis_yields_placeholder
    (value : Option (List (String × ResourceConfig)))
    (hnd : (value.getD []).lookup "__default__" = none)
    (k : String) (hk : (value.getD []).lookup k = none) :
    (AzureMLConfig._validate_resources value).resolve k =
      some { cluster_name := "{cluster_name}" } := by
  unfold AzureMLConfig._validate_resources
  rw [create_resolve, hk, hnd]
  rfl

/-- Witness for the amended C2 at a concrete resources mapping without a
`"__default__"` entry. -/
theorem default_synthesis_yields_placeholder_witness :
    (AzureMLConfig._validate_resources
      (some [("chunky", { cluster_name := "chunky-cpu-cluster" })])).resolve "bar" =
      some { cluster_name := "{cluster_name}" } :=
  default_synthesis_yields_placeholder
    (some [("chunky", { cluster_name := "chunky-cpu-cluster" })]) rfl "bar" rfl

/-- A table built by a successful parse has its default factory set, so it
resolves every key. -/
theorem parsed_table_resolve_isSome (doc : PyVal) (c : KedroAzureMLConfig)
    (hp : KedroAzureMLConfig.parse_obj doc = .ok c) (k : String) :
    (c.azure.resources.resolve k).isSome = true := by
  obtain ⟨kvs, akvs, dkvs, rs, -, -, -, -, -, -, -, -, -, hres, -⟩ :=
    parse_obj_ok_inv doc c hp
  have hfac : c.azure.resources.default_factory =
      some (((rs.getD []).lookup "__default__").getD { cluster_name := "{cluster_name}" }) := by
    rw [hres]; rfl
  exact resolve_isSome_of_factory _ _ hfac k

/-- Claim C3: on every table built by a successful parse, resolution
succeeds for every string key — including the empty string and keys that
contain `"__default__"` as a proper substring — and returns a
fully-populated record; the lookup never raises `KeyError`. -/
theorem resolve_total_on_parsed_tables (doc : PyVal) (c : KedroAzureMLConfig)
    (hp : KedroAzureMLConfig.parse_obj doc = .ok c) (k : String) :
    (c.azure.resources.resolve k).isSome = true ∧
    (c.azure.resources.__getitem__ k).isSome = true := by
  refine ⟨parsed_table_resolve_isSome doc c hp k, ?_⟩
  rw [getitem_isSome_eq]
  exact parsed_table_resolve_isSome doc c hp k

/-- Witness for C3 at the parsed example document, on the empty string and
on a key containing `"__default__"` as a proper substring. -/
theorem resolve_total_on_parsed_tables_witness :
    (exampleCfg.azure.resources.resolve "").isSome = true ∧
    (exampleCfg.azure.resources.resolve "a__default__b").isSome = true :=
  ⟨(resolve_total_on_parsed_tables exampleDoc exampleCfg rfl "").1,
   (resolve_total_on_parsed_tables exampleDoc exampleCfg rfl "a__default__b").1⟩

/-- Claim C5: on a table built by a successful parse, resolution is
idempotent: the first lookup succeeds, and repeating it on the table state
the first lookup left behind returns the same record. -/
theorem resolve_idempotent_on_parsed_tables (doc : PyVal) (c : KedroAzureMLConfig)
    (hp : KedroAzureMLConfig.parse_obj doc = .ok c) (k : String) :
    ((c.azure.resources.__getitem__ k).bind fun p => p.2.resolve k) =
      c.azure.resources.resolve k ∧
    (c.azure.resources.resolve k).isSome = true := by
  have htot : (c.azure.resources.__getitem__ k).isSome = true := by
    rw [getitem_isSome_eq]
    exact parsed_table_resolve_isSome doc c hp k
  refine ⟨?_, parsed_table_resolve_isSome doc c hp k⟩
  obtain ⟨⟨r, t1⟩, hg⟩ := Option.isSome_iff_exists.mp htot
  obtain ⟨-, -, hread⟩ := getitem_state _ _ _ _ hg
  have hr1 : c.azure.resources.resolve k = some r := by
    unfold DefaultConfigDict.resolve
    rw [hg]
    rfl
  have hr2 : t1.resolve k = c.azure.resources.resolve k := by
    rw [resolve_eq_read, resolve_eq_read, hread, hread]
  rw [hg]
  simpa using hr2

/-- Witness for C5 at the parsed example document on the absent key
`"bar"`. -/
theorem resolve_idempotent_on_parsed_tables_witness :
    ((exampleCfg.azure.resources.__getitem__ "bar").bind fun p => p.2.resolve "bar") =
      exampleCfg.azure.resources.resolve "bar" ∧
    (exampleCfg.azure.resources.resolve "bar").isSome = true :=
  resolve_idempotent_on_parsed_tables exampleDoc exampleCfg rfl "bar"

/-- Claim C6 counterexample: on the table built from
`{ "__default__": {cluster_name: "A"} }`, resolving the absent key `"foo"`
changes the stored mapping — the key is inserted by `__missing__` — so the
table is not the same as before the lookup. -/
theorem resolution_mutates_table_counterexample :
    ((AzureMLConfig._create_default_dict_with
        (some [("__default__", { cluster_name := "A" })])
        { cluster_name := "{cluster_name}" }).__getitem__ "foo").map
          (fun p => p.2.entries) ≠
      some (AzureMLConfig._create_default_dict_with
        (some [("__default__", { cluster_name := "A" })])
        { cluster_name := "{cluster_name}" }).entries := by
  decide

/-- Claim C6 (amended): resolution never modifies the record stored under
any existing key, never changes the default factory, and changes the
result of no future resolution; however a missed key (and a missing
`"__default__"` entry) is inserted into the underlying dictionary bound to
the default record, so the stored key set may grow. -/
theorem resolve_preserves_stored_records_and_results
    (d : DefaultConfigDict) (k : String) (r : ResourceConfig)
    (t : DefaultConfigDict) (h : d.__getitem__ k = some (r, t)) :
    (∀ k2 v2, d.entries.lookup k2 = some v2 → t.entries.lookup k2 = some v2) ∧
    t.default_factory = d.default_factory ∧
    (∀ k2, t.resolve k2 = d.resolve k2) := by
  obtain ⟨hf, hpres, hread⟩ := getitem_state d k r t h
  exact ⟨hpres, hf, fun k2 => by rw [resolve_eq_read, resolve_eq_read, hread, hread]⟩

/-- Witness for the amended C6: on the table built from
`{ "__default__": {cluster_name: "A"} }`, after resolving `"foo"` the
stored `"__default__"` record is unchanged, the factory is unchanged, and
`"bar"` still resolves to the same record. -/
theorem resolve_preserves_stored_records_and_results_witness :
    exampleTableAfter.entries.lookup "__default__" = some { cluster_name := "A" } ∧
    exampleTableAfter.default_factory = exampleTableA.default_factory ∧
    exampleTableAfter.resolve "bar" = exampleTableA.resolve "bar" :=
  ⟨(resolve_preserves_stored_records_and_results exampleTableA "foo"
      { cluster_name := "A" } exampleTableAfter rfl).1 "__default__"
        { cluster_name := "A" } rfl,
   (resolve_preserves_stored_records_and_results exampleTableA "foo"
      { cluster_name := "A" } exampleTableAfter rfl).2.1,
   (resolve_preserves_stored_records_and_results exampleTableA "foo"
      { cluster_name := "A" } exampleTableAfter rfl).2.2 "bar"⟩

/-- A field the `str`-validation rejects produces no value and is reported
under its path. -/
theorem strFieldOk_false_req (p : FieldPath) (kvs : List (String × PyVal)) (n : String)
    (h : strFieldOk kvs n = false) :
    (reqStrField p kvs n).2 = none ∧ (p ++ [n]) ∈ (reqStrField p kvs n).1 := by
  unfold strFieldOk at h
  unfold reqStrField
  cases hl : kvs.lookup n with
  | none => simp
  | some v =>
    cases hv : strValidator v with
    | ok s =>
      rw [hl] at h
      simp [hv] at h
    | error e => simp [hv]

/-- A missing `temporary_storage` section produces no value and is
reported under its path. -/
theorem tempStorage_missing_err (akvs : List (String × PyVal))
    (h : akvs.lookup "temporary_storage" = none) :
    (parseTempStorageField ["azure"] akvs).2 = none ∧
    ["azure", "temporary_storage"] ∈ (parseTempStorageField ["azure"] akvs).1 := by
  unfold parseTempStorageField
  simp [h]

/-- A `temporary_storage` section whose `account_name` or `container` is
missing or rejected by the `str` validator produces no value, and the
inner field is reported under its full path. -/
theorem tempStorage_field_err (akvs tskvs : List (String × PyVal)) (inner : String)
    (hts : akvs.lookup "temporary_storage" = some (.dict tskvs))
    (hin : inner = "account_name" ∨ inner = "container")
    (hbad : strFieldOk tskvs inner = false) :
    (parseTempStorageField ["azure"] akvs).2 = none ∧
    ["azure", "temporary_storage", inner] ∈ (parseTempStorageField ["azure"] akvs).1 := by
  obtain ⟨h21, h22⟩ := strFieldOk_false_req (["azure"] ++ ["temporary_storage"]) tskvs inner hbad
  simp only [List.cons_append, List.nil_append] at h21 h22
  unfold parseTempStorageField
  simp only [hts]
  rcases hin with rfl | rfl
  · refine ⟨by simp [h21], ?_⟩
    simp only [List.mem_append]
    exact Or.inl (by simpa using h22)
  · refine ⟨?_, ?_⟩
    · cases han : (reqStrField (["azure"] ++ ["temporary_storage"]) tskvs "account_name").2 <;>
        simp [h21]
    · simp only [List.mem_append]
      exact Or.inr (by simpa using h22)

/-- A `docker` section whose `image` is missing or rejected produces no
value and reports `docker.image`. -/
theorem dockerImage_err (dkvs : List (String × PyVal))
    (hbad : strFieldOk dkvs "image" = false) :
    (parseDocker (.dict dkvs)).2 = none ∧
    ["docker", "image"] ∈ (parseDocker (.dict dkvs)).1 := by
  obtain ⟨h21, h22⟩ := strFieldOk_false_req ["docker"] dkvs "image" hbad
  rcases hE : reqStrField ["docker"] dkvs "image" with ⟨es, o⟩
  rw [hE] at h21 h22
  have ho : o = none := h21
  subst ho
  simp only [parseDocker, hE]
  exact ⟨trivial, h22⟩

/-- A failed `docker` section makes the whole parse fail, and its errors
are among the reported ones. -/
theorem parse_error_of_docker (kvs dkvs : List (String × PyVal)) (p : FieldPath)
    (hD : kvs.lookup "docker" = some (.dict dkvs))
    (hn : (parseDocker (.dict dkvs)).2 = none)
    (hm : p ∈ (parseDocker (.dict dkvs)).1) :
    parseFailed (.dict kvs) = true ∧ p ∈ parseErrors (.dict kvs) := by
  unfold parseFailed parseErrors KedroAzureMLConfig.parse_obj
  cases hA : kvs.lookup "azure" with
  | none =>
    simp only [hA, hD, hn, List.mem_append]
    exact ⟨trivial, Or.inr hm⟩
  | some v =>
    cases haz : (parseAzure v).2 with
    | none =>
      simp only [hA, hD, hn, haz, List.mem_append]
      exact ⟨trivial, Or.inr hm⟩
    | some a =>
      simp only [hA, hD, hn, haz, List.mem_append]
      exact ⟨trivial, Or.inr hm⟩

/-- A missing `docker` section makes the whole parse fail and is reported
under its path. -/
theorem parse_error_docker_missing (kvs : List (String × PyVal))
    (hD : kvs.lookup "docker" = none) :
    parseFailed (.dict kvs) = true ∧ ["docker"] ∈ parseErrors (.dict kvs) := by
  unfold parseFailed parseErrors KedroAzureMLConfig.parse_obj
  cases hA : kvs.lookup "azure" with
  | none => simp [hA, hD]
  | some v =>
    cases haz : (parseAzure v).2 with
    | none => simp [hA, hD, haz]
    | some a => simp [hA, hD, haz]

/-- Claim C4: a document whose `azure.temporary_storage` mapping lacks
`account_name` is rejected with a `ValidationError` naming the path
`azure.temporary_storage.account_name` and no configuration is returned;
more generally, whenever any required field is missing or carries a value
the `str` validator rejects — any of the four `azure` scalar fields, the
two storage fields, the `temporary_storage` section itself, `docker.image`
or the `docker` section — the parse fails and the error names that
field's path. -/
theorem parse_missing_required_field_reports_path
    (kvs akvs : List (String × PyVal))
    (hA : kvs.lookup "azure" = some (.dict akvs)) :
    (∀ tskvs, akvs.lookup "temporary_storage" = some (.dict tskvs) →
      tskvs.lookup "account_name" = none →
      parseFailed (.dict kvs) = true ∧
      ["azure", "temporary_storage", "account_name"] ∈ parseErrors (.dict kvs)) ∧
    (∀ name, (name = "experiment_name" ∨ name = "workspace_name" ∨
        name = "resource_group" ∨ name = "cluster_name") →
      strFieldOk akvs name = false →
      parseFailed (.dict kvs) = true ∧
      ["azure", name] ∈ parseErrors (.dict kvs)) ∧
    (∀ tskvs inner, akvs.lookup "temporary_storage" = some (.dict tskvs) →
      (inner = "account_name" ∨ inner = "container") →
      strFieldOk tskvs inner = false →
      parseFailed (.dict kvs) = true ∧
      ["azure", "temporary_storage", inner] ∈ parseErrors (.dict kvs)) ∧
    (akvs.lookup "temporary_storage" = none →
      parseFailed (.dict kvs) = true ∧
      ["azure", "temporary_storage"] ∈ parseErrors (.dict kvs)) ∧
    (∀ dkvs, kvs.lookup "docker" = some (.dict dkvs) →
      strFieldOk dkvs "image" = false →
      parseFailed (.dict kvs) = true ∧
      ["docker", "image"] ∈ parseErrors (.dict kvs)) ∧
    (kvs.lookup "docker" = none →
      parseFailed (.dict kvs) = true ∧ ["docker"] ∈ parseErrors (.dict kvs)) := by
  refine ⟨?_, ?_, ?_, ?_, ?_, ?_⟩
  · intro tskvs hts han
    have hbad : strFieldOk tskvs "account_name" = false := by
      unfold strFieldOk
      simp [han]
    have h := tempStorage_field_err akvs tskvs "account_name" hts (Or.inl rfl) hbad
    exact parse_error_of_azure kvs akvs _ hA
      (parseAzure_snd_none akvs (Or.inr (Or.inr (Or.inr (Or.inr (Or.inl h.1))))))
      (mem_parseAzure_errs akvs _ (Or.inr (Or.inr (Or.inr (Or.inr (Or.inl h.2))))))
  · intro name hname hbad
    obtain ⟨hn2, hm2⟩ := strFieldOk_false_req ["azure"] akvs name hbad
    refine parse_error_of_azure kvs akvs _ hA (parseAzure_snd_none akvs ?_)
      (mem_parseAzure_errs akvs _ ?_)
    · rcases hname with rfl | rfl | rfl | rfl
      · exact Or.inl hn2
      · exact Or.inr (Or.inl hn2)
      · exact Or.inr (Or.inr (Or.inl hn2))
      · exact Or.inr (Or.inr (Or.inr (Or.inl hn2)))
    · rcases hname with rfl | rfl | rfl | rfl
      · exact Or.inl hm2
      · exact Or.inr (Or.inl hm2)
      · exact Or.inr (Or.inr (Or.inl hm2))
      · exact Or.inr (Or.inr (Or.inr (Or.inl hm2)))
  · intro tskvs inner hts hin hbad
    have h := tempStorage_field_err akvs tskvs inner hts hin hbad
    exact parse_error_of_azure kvs akvs _ hA
      (parseAzure_snd_none akvs (Or.inr (Or.inr (Or.inr (Or.inr (Or.inl h.1))))))
      (mem_parseAzure_errs akvs _ (Or.inr (Or.inr (Or.inr (Or.inr (Or.inl h.2))))))
  · intro hts
    have h := tempStorage_missing_err akvs hts
    exact parse_error_of_azure kvs akvs _ hA
      (parseAzure_snd_none akvs (Or.inr (Or.inr (Or.inr (Or.inr (Or.inl h.1))))))
      (mem_parseAzure_errs akvs _ (Or.inr (Or.inr (Or.inr (Or.inr (Or.inl h.2))))))
  · intro dkvs hD hbad
    have h := dockerImage_err dkvs hbad
    exact parse_error_of_docker kvs dkvs _ hD h.1 h.2
  · intro hD
    exact parse_error_docker_missing kvs hD

/-- Witness for C4 at the concrete document missing
`azure.temporary_storage.account_name`. -/
theorem parse_missing_required_field_reports_path_witness :
    parseFailed (.dict missingAccountKvs) = true ∧
    ["azure", "temporary_storage", "account_name"] ∈ parseErrors (.dict missingAccountKvs) :=
  (parse_missing_required_field_reports_path missingAccountKvs
    missingAccountAzureKvs rfl).1 missingAccountTsKvs rfl rfl

/-- Claim C7 counterexample: a document in which every required string
field is the empty string is accepted by `parse_obj`, not rejected with a
`ValidationError`. -/
theorem empty_string_fields_accepted_counterexample :
    KedroAzureMLConfig.parse_obj emptyStringsDoc = .ok emptyStringsCfg ∧
    emptyStringsCfg.azure.experiment_name = "" ∧
    emptyStringsCfg.azure.temporary_storage.account_name = "" ∧
    emptyStringsCfg.docker.image = "" ∧
    parseFailed emptyStringsDoc = false :=
  ⟨rfl, rfl, rfl, rfl, rfl⟩

/-- Claim C7 (amended): a document accepted by `parse_obj` carries every
required string field — `experiment_name`, `workspace_name`,
`resource_group`, `cluster_name`, `temporary_storage.account_name`,
`temporary_storage.container` and `docker.image` — with a value the `str`
validator accepts; validation happens at construction.  (Empty strings are
accepted, not rejected.) -/
theorem parse_validates_fields_at_construction
    (kvs akvs dkvs : List (String × PyVal)) (c : KedroAzureMLConfig)
    (hA : kvs.lookup "azure" = some (.dict akvs))
    (hD : kvs.lookup "docker" = some (.dict dkvs))
    (hp : KedroAzureMLConfig.parse_obj (.dict kvs) = .ok c) :
    strFieldOk akvs "experiment_name" = true ∧
    strFieldOk akvs "workspace_name" = true ∧
    strFieldOk akvs "resource_group" = true ∧
    strFieldOk akvs "cluster_name" = true ∧
    tempStorageFieldOk akvs = true ∧
    strFieldOk dkvs "image" = true := by
  obtain ⟨kvs2, akvs2, dkvs2, rs, heq, hA2, hD2, he, hw, hr, hc, hts, hrs, hres, hI⟩ :=
    parse_obj_ok_inv (.dict kvs) c hp
  injection heq with heq2
  subst heq2
  rw [hA] at hA2
  injection Option.some.inj hA2 with hA3
  subst hA3
  rw [hD] at hD2
  injection Option.some.inj hD2 with hD3
  subst hD3
  exact ⟨strFieldOk_of_req _ _ _ _ he, strFieldOk_of_req _ _ _ _ hw,
    strFieldOk_of_req _ _ _ _ hr, strFieldOk_of_req _ _ _ _ hc,
    tempStorageFieldOk_of_parse _ _ _ hts, strFieldOk_of_req _ _ _ _ hI⟩

/-- Witness for the amended C7 at the parsed example document. -/
theorem parse_validates_fields_at_construction_witness :
    strFieldOk exampleAzureKvs "experiment_name" = true ∧
    strFieldOk exampleAzureKvs "workspace_name" = true ∧
    strFieldOk exampleAzureKvs "resource_group" = true ∧
    strFieldOk exampleAzureKvs "cluster_name" = true ∧
    tempStorageFieldOk exampleAzureKvs = true ∧
    strFieldOk exampleDkvs "image" = true :=
  parse_validates_fields_at_construction exampleKvs exampleAzureKvs exampleDkvs
    exampleCfg rfl rfl rfl

/-- Claim C8 counterexample: constructing the MLflow model dataset with
flavor `"mlflow.pyfunc"` and `pyfunc_workflow` unset raises a kedro
`DataSetError`, not a pydantic `ValidationError`. -/
theorem pyfunc_error_is_dataset_error_counterexample :
    MlflowAbstractModelDataSet.__init__ (fun _ => true) "" "mlflow.pyfunc"
      none none none none = .error (.dataSetError pyfuncWorkflowMsg) ∧
    raisedValidationError (MlflowAbstractModelDataSet.__init__ (fun _ => true) ""
      "mlflow.pyfunc" none none none none) = false ∧
    raisedDataSetError (MlflowAbstractModelDataSet.__init__ (fun _ => true) ""
      "mlflow.pyfunc" none none none none) = true :=
  ⟨rfl, rfl, rfl⟩

/-- Claim C8 (amended): constructing the MLflow model dataset with flavor
`"mlflow.pyfunc"` and `pyfunc_workflow` outside
`{python_model, loader_module}` — including unset — raises a
`DataSetError` and returns no dataset object. -/
theorem pyfunc_invalid_workflow_raises_dataset_error
    (importable : String → Bool) (filepath : String) (wf : Option String)
    (load_args save_args : Option (List (String × PyVal)))
    (version : Option Version)
    (h1 : wf ≠ some "python_model") (h2 : wf ≠ some "loader_module") :
    MlflowAbstractModelDataSet.__init__ importable filepath "mlflow.pyfunc" wf
      load_args save_args version = .error (.dataSetError pyfuncWorkflowMsg) := by
  unfold MlflowAbstractModelDataSet.__init__
  rw [if_pos ⟨rfl, h1, h2⟩]

/-- Witness for the amended C8 at a concrete invalid workflow name. -/
theorem pyfunc_invalid_workflow_raises_dataset_error_witness :
    MlflowAbstractModelDataSet.__init__ (fun _ => true) "p" "mlflow.pyfunc"
      (some "bogus") none none none = .error (.dataSetError pyfuncWorkflowMsg) :=
  pyfunc_invalid_workflow_raises_dataset_error (fun _ => true) "p" (some "bogus")
    none none none (by decide) (by decide)

/-- Claim C9: a raw document whose `resources` key is absent or null, with
all other required fields valid, is accepted by `parse_obj`; the resource
table is still constructed, and every string key resolves to the
synthesized default record with cluster name `"{cluster_name}"`. -/
theorem parse_tolerates_missing_resources
    (kvs akvs tskvs dkvs : List (String × PyVal))
    (ven vwn vrg vcn van vct vim : PyVal)
    (sen swn srg scn san sct simg : String)
    (hA : kvs.lookup "azure" = some (.dict akvs))
    (hD : kvs.lookup "docker" = some (.dict dkvs))
    (hen : akvs.lookup "experiment_name" = some ven)
    (hen2 : strValidator ven = .ok sen)
    (hwn : akvs.lookup "workspace_name" = some vwn)
    (hwn2 : strValidator vwn = .ok swn)
    (hrg : akvs.lookup "resource_group" = some vrg)
    (hrg2 : strValidator vrg = .ok srg)
    (hcn : akvs.lookup "cluster_name" = some vcn)
    (hcn2 : strValidator vcn = .ok scn)
    (hts : akvs.lookup "temporary_storage" = some (.dict tskvs))
    (han : tskvs.lookup "account_name" = some van)
    (han2 : strValidator van = .ok san)
    (hct : tskvs.lookup "container" = some vct)
    (hct2 : strValidator vct = .ok sct)
    (him : dkvs.lookup "image" = some vim)
    (him2 : strValidator vim = .ok simg)
    (hres : akvs.lookup "resources" = none ∨ akvs.lookup "resources" = some .null) :
    KedroAzureMLConfig.parse_obj (.dict kvs) =
      .ok { azure := { experiment_name := sen, workspace_name := swn,
                       resource_group := srg, cluster_name := scn,
                       temporary_storage := { account_name := san, container := sct },
                       resources := AzureMLConfig._validate_resources none },
            docker := { image := simg } } ∧
    ∀ k, (AzureMLConfig._validate_resources none).resolve k =
      some { cluster_name := "{cluster_name}" } := by
  constructor
  · rcases hres with h | h <;>
      simp [KedroAzureMLConfig.parse_obj, parseAzure, parseDocker,
        parseTempStorageField, parseResourcesField, reqStrField,
        hA, hD, hen, hen2, hwn, hwn2, hrg, hrg2, hcn, hcn2, hts, han, han2,
        hct, hct2, him, him2, h]
  · intro k
    unfold AzureMLConfig._validate_resources
    rw [create_resolve]
    rfl

/-- Witness for C9 at a concrete well-formed document without a
`resources` key. -/
theorem parse_tolerates_missing_resources_witness :
    KedroAzureMLConfig.parse_obj (.dict noResourcesKvs) =
      .ok { azure := { experiment_name := "e", workspace_name := "w",
                       resource_group := "rg", cluster_name := "c",
                       temporary_storage := { account_name := "acct", container := "cont" },
                       resources := AzureMLConfig._validate_resources none },
            docker := { image := "img" } } ∧
    (AzureMLConfig._validate_resources none).resolve "anything" =
      some { cluster_name := "{cluster_name}" } :=
  ⟨(parse_tolerates_missing_resources noResourcesKvs noResourcesAzureKvs
      exampleTsKvs exampleDkvs
      (.str "e") (.str "w") (.str "rg") (.str "c") (.str "acct") (.str "cont")
      (.str "img") "e" "w" "rg" "c" "acct" "cont" "img"
      rfl rfl rfl rfl rfl rfl rfl rfl rfl rfl rfl rfl rfl rfl rfl rfl rfl
      (Or.inl rfl)).1,
   (parse_tolerates_missing_resources noResourcesKvs noResourcesAzureKvs
      exampleTsKvs exampleDkvs
      (.str "e") (.str "w") (.str "rg") (.str "c") (.str "acct") (.str "cont")
      (.str "img") "e" "w" "rg" "c" "acct" "cont" "img"
      rfl rfl rfl rfl rfl rfl rfl rfl rfl rfl rfl rfl rfl rfl rfl rfl rfl
      (Or.inl rfl)).2 "anything"⟩

set_option maxRecDepth 4096 in
/-- Claim C10: constructing an `AzureMLFolderDataSet` whose underlying
dataset configuration contains the versioning key (`VERSION_KEY`) raises a
`DataSetError` whose message names the `VERSIONED_FLAG_KEY` flag to
remove, and no dataset object is returned; a configuration without that
key passes this check. -/
theorem folder_dataset_rejects_versioned_config
    (azureml_dataset : String) (dataset_config : List (String × PyVal))
    (filepath_arg : String) :
    ((dataset_config.lookup VERSION_KEY).isSome = true →
      AzureMLFolderDataSet.__init__ azureml_dataset dataset_config filepath_arg =
        .error (.dataSetError folderVersioningMsg)) ∧
    ((dataset_config.lookup VERSION_KEY).isSome = false →
      AzureMLFolderDataSet.__init__ azureml_dataset dataset_config filepath_arg =
        .ok { _azureml_dataset := azureml_dataset,
              _dataset_config := dataset_config,
              _filepath_arg := filepath_arg }) ∧
    VERSIONED_FLAG_KEY.data <:+: folderVersioningMsg.data := by
  refine ⟨?_, ?_, by decide⟩
  · intro h
    unfold AzureMLFolderDataSet.__init__
    rw [if_pos h]
  · intro h
    unfold AzureMLFolderDataSet.__init__
    rw [if_neg (by simp [h])]

/-- Witness for C10: a versioned configuration is rejected, an unversioned
one is accepted. -/
theorem folder_dataset_rejects_versioned_config_witness :
    AzureMLFolderDataSet.__init__ "azds" [("version", PyVal.null)] "filepath" =
      .error (.dataSetError folderVersioningMsg) ∧
    AzureMLFolderDataSet.__init__ "azds" [("type", PyVal.str "pandas.CSVDataSet")]
      "filepath" =
      .ok { _azureml_dataset := "azds",
            _dataset_config := [("type", PyVal.str "pandas.CSVDataSet")],
            _filepath_arg := "filepath" } :=
  ⟨(folder_dataset_rejects_versioned_config "azds" [("version", PyVal.null)]
      "filepath").1 rfl,
   (folder_dataset_rejects_versioned_config "azds"
      [("type", PyVal.str "pandas.CSVDataSet")] "filepath").2.1 rfl⟩
